import Mathlib

/-!
Intra-process subscription buffer and events queue

A shallow embedding of

* `rclcpp/experimental/subscription_intra_process_buffer.hpp`
  (class `SubscriptionIntraProcessBuffer`), and
* the events queue exercised by `test/rclcpp/executors/test_events_queue.cpp`.

Methods of the C++ class are translated as pure functions which take the
object (`self`) and return an `Outcome`: the returned value, the object after
the call, and the ordered list of calls made to external collaborators (the
buffer behind `buffer_`, the rcl guard-condition API, the logger).  A
constructor that may throw returns `Except`.
-/

namespace rclcpp
namespace experimental

/-! ## External collaborators of the adapter -/

/-- Return codes of the rcl C API (`rcl_ret_t`). -/
abbrev rcl_ret_t := Int

/-- The success code `RCL_RET_OK` of the rcl C API. -/
def RCL_RET_OK : rcl_ret_t := 0

/-- A `std::shared_ptr<const T>`: a possibly null shared handle. -/
structure ConstSharedPtr (T : Type) where
  get : Option T
deriving DecidableEq, Repr

/-- A `std::unique_ptr<T, Deleter>`: a possibly null owned handle. -/
structure UniquePtr (T : Type) where
  get : Option T
deriving DecidableEq, Repr

/-- Modelled from the spec: the abstract interface
`buffers::IntraProcessBuffer<SubscribedType, ...>` behind `buffer_`
(`intra_process_buffer.hpp` is not among the sources).  `B` is the state of
the concrete buffer; the four members are the virtual methods the adapter
calls.  Insertion never blocks and never fails the caller, `has_data` and
`use_take_shared_method` are queries. -/
structure IntraProcessBuffer (B T : Type) where
  add_shared : B → ConstSharedPtr T → B
  add_unique : B → UniquePtr T → B
  has_data : B → Bool
  use_take_shared_method : B → Bool

/-- The guard-condition part of the rcl C API, over a guard-condition state
`G` and an rcl context `C`.  Each fallible function returns the
guard condition after the call together with its `rcl_ret_t`. -/
structure Rcl (G C : Type) where
  rcl_get_zero_initialized_guard_condition : G
  rcl_guard_condition_init : G → C → G × rcl_ret_t
  rcl_guard_condition_fini : G → G × rcl_ret_t
  rcl_trigger_guard_condition : G → G × rcl_ret_t
  rcutils_get_error_string : String

/-- Calls made by the adapter to its collaborators, in the order of a trace. -/
inductive Call (T : Type) where
  | create_intra_process_buffer
  | rcl_guard_condition_init
  | rcl_guard_condition_fini
  | rcl_trigger_guard_condition
  | add_shared (message : ConstSharedPtr T)
  | add_unique (message : UniquePtr T)
  | has_data
  | use_take_shared_method
  | RCUTILS_LOG_ERROR_NAMED (name format arg : String)
deriving DecidableEq, Repr

/-- The trait `rclcpp::TypeAdapter<MessageT>`, indexed by `custom_type` and
`ros_message_type`.  The primary template (not specialized) has both equal to
`MessageT`; a specialization names a custom type and a ROS message type. -/
inductive TypeAdapter : Type → Type → Type 1 where
  | primary (MessageT : Type) : TypeAdapter MessageT MessageT
  | specialization (custom_type ros_message_type : Type) :
      TypeAdapter custom_type ros_message_type

/-- The member `TypeAdapter<MessageT>::is_specialized::value`. -/
def TypeAdapter.is_specialized {SubscribedT ROSMessageT : Type} :
    TypeAdapter SubscribedT ROSMessageT → Bool
  | .primary _ => false
  | .specialization _ _ => true

/-! ## The adapter -/

/-- The object state of `SubscriptionIntraProcessBuffer`: the members `gc_`,
`topic_name_` and `qos_profile_` inherited from the base classes, and
`buffer_`. -/
structure SubscriptionIntraProcessBuffer (B G Q : Type) where
  topic_name_ : String
  qos_profile_ : Q
  gc_ : G
  buffer_ : B

/-- The result of a call that returns: the returned value, the object
afterwards, and the collaborator calls made, oldest first.  A method has the
result type `Except String (Outcome S V T)`: it returns with an `Outcome`, or
it throws a `std::runtime_error` with a message. -/
structure Outcome (S V T : Type) where
  value : V
  self : S
  calls : List (Call T)

/-- The number of buffer insertions (`add_shared` or `add_unique`) in a trace. -/
def countAdds {T : Type} : List (Call T) → Nat
  | [] => 0
  | Call.add_shared _ :: cs => countAdds cs + 1
  | Call.add_unique _ :: cs => countAdds cs + 1
  | _ :: cs => countAdds cs

/-- The number of `rcl_trigger_guard_condition` calls in a trace. -/
def countTriggers {T : Type} : List (Call T) → Nat
  | [] => 0
  | Call.rcl_trigger_guard_condition :: cs => countTriggers cs + 1
  | _ :: cs => countTriggers cs

/-- The number of `rcl_guard_condition_fini` calls in a trace. -/
def countFinis {T : Type} : List (Call T) → Nat
  | [] => 0
  | Call.rcl_guard_condition_fini :: cs => countFinis cs + 1
  | _ :: cs => countFinis cs

/-- The number of error log entries in a trace. -/
def countLogs {T : Type} : List (Call T) → Nat
  | [] => 0
  | Call.RCUTILS_LOG_ERROR_NAMED _ _ _ :: cs => countLogs cs + 1
  | _ :: cs => countLogs cs

/-- Either handle kind accepted by `provide_intra_process_data`. -/
inductive DataHandle (T : Type) where
  | shared (message : ConstSharedPtr T)
  | unique (message : UniquePtr T)
deriving DecidableEq, Repr

namespace SubscriptionIntraProcessBuffer

variable {B G C Q A BT : Type}

/-- The constructor.  It creates the buffer with the factory
`create_intra_process_buffer(buffer_type, qos_profile, allocator)`, zero
initializes `gc_`, calls `rcl_guard_condition_init` on it with the context,
and throws `std::runtime_error` when the return code is not `RCL_RET_OK`. -/
def new (SubscribedT : Type) (create_intra_process_buffer : BT → Q → A → B)
    (rcl : Rcl G C) (allocator : A) (context : C) (topic_name : String)
    (qos_profile : Q) (buffer_type : BT) :
    Except String (Outcome (SubscriptionIntraProcessBuffer B G Q) Unit SubscribedT) :=
  let buffer_ := create_intra_process_buffer buffer_type qos_profile allocator
  let gc_ := rcl.rcl_get_zero_initialized_guard_condition
  let r := rcl.rcl_guard_condition_init gc_ context
  if RCL_RET_OK ≠ r.2 then
    Except.error "SubscriptionIntraProcessBuffer init error initializing guard condition"
  else
    Except.ok
      { value := (),
        self := { topic_name_ := topic_name, qos_profile_ := qos_profile, gc_ := r.1,
                  buffer_ := buffer_ },
        calls := [Call.create_intra_process_buffer, Call.rcl_guard_condition_init] }

/-- The destructor.  It calls `rcl_guard_condition_fini` and logs an error
when the return code is not `RCL_RET_OK`; it has no throwing exit. -/
def delete (SubscribedT : Type) (rcl : Rcl G C)
    (self : SubscriptionIntraProcessBuffer B G Q) :
    Except String (Outcome (SubscriptionIntraProcessBuffer B G Q) Unit SubscribedT) :=
  let r := rcl.rcl_guard_condition_fini self.gc_
  if r.2 ≠ RCL_RET_OK then
    Except.ok
      { value := (), self := { self with gc_ := r.1 },
        calls := [Call.rcl_guard_condition_fini,
          Call.RCUTILS_LOG_ERROR_NAMED "rclcpp" "Failed to destroy guard condition: %s"
            rcl.rcutils_get_error_string] }
  else
    Except.ok
      { value := (), self := { self with gc_ := r.1 },
        calls := [Call.rcl_guard_condition_fini] }

/-- The protected method `trigger_guard_condition`: one call of
`rcl_trigger_guard_condition` whose return code is discarded. -/
def trigger_guard_condition (SubscribedT : Type) (rcl : Rcl G C)
    (self : SubscriptionIntraProcessBuffer B G Q) :
    Except String (Outcome (SubscriptionIntraProcessBuffer B G Q) Unit SubscribedT) :=
  let r := rcl.rcl_trigger_guard_condition self.gc_
  Except.ok
    { value := (), self := { self with gc_ := r.1 },
      calls := [Call.rcl_trigger_guard_condition] }

/-- The method `is_ready(rcl_wait_set_t * wait_set)`; the wait set is a
possibly null pointer, and it is not used. -/
def is_ready {W SubscribedT : Type} (buf : IntraProcessBuffer B SubscribedT)
    (self : SubscriptionIntraProcessBuffer B G Q) (_wait_set : Option W) :
    Except String (Outcome (SubscriptionIntraProcessBuffer B G Q) Bool SubscribedT) :=
  Except.ok { value := buf.has_data self.buffer_, self := self, calls := [Call.has_data] }

/-- The overload `provide_intra_process_message(ConstMessageSharedPtr)`.
The `if constexpr` on `is_specialized` is the match on the type adapter:
in the primary case `ROSMessageType` is `SubscribedType`, in a
specialization the body is empty. -/
def provide_intra_process_message_shared :
    {SubscribedT ROSMessageT : Type} → TypeAdapter SubscribedT ROSMessageT →
    IntraProcessBuffer B SubscribedT → Rcl G C →
    SubscriptionIntraProcessBuffer B G Q → ConstSharedPtr ROSMessageT →
    Except String (Outcome (SubscriptionIntraProcessBuffer B G Q) Unit SubscribedT)
  | _, _, .primary MessageT, buf, rcl, self, message => do
    let self1 := { self with buffer_ := buf.add_shared self.buffer_ message }
    let t ← trigger_guard_condition MessageT rcl self1
    return { value := (), self := t.self, calls := Call.add_shared message :: t.calls }
  | _, _, .specialization _ _, _, _, self, _ =>
    return { value := (), self := self, calls := [] }

/-- The overload `provide_intra_process_message(MessageUniquePtr)`. -/
def provide_intra_process_message_unique :
    {SubscribedT ROSMessageT : Type} → TypeAdapter SubscribedT ROSMessageT →
    IntraProcessBuffer B SubscribedT → Rcl G C →
    SubscriptionIntraProcessBuffer B G Q → UniquePtr ROSMessageT →
    Except String (Outcome (SubscriptionIntraProcessBuffer B G Q) Unit SubscribedT)
  | _, _, .primary MessageT, buf, rcl, self, message => do
    let self1 := { self with buffer_ := buf.add_unique self.buffer_ message }
    let t ← trigger_guard_condition MessageT rcl self1
    return { value := (), self := t.self, calls := Call.add_unique message :: t.calls }
  | _, _, .specialization _ _, _, _, self, _ =>
    return { value := (), self := self, calls := [] }

/-- The overload `provide_intra_process_data(ConstDataSharedPtr)`. -/
def provide_intra_process_data_shared {SubscribedT : Type}
    (buf : IntraProcessBuffer B SubscribedT) (rcl : Rcl G C)
    (self : SubscriptionIntraProcessBuffer B G Q)
    (message : ConstSharedPtr SubscribedT) :
    Except String (Outcome (SubscriptionIntraProcessBuffer B G Q) Unit SubscribedT) := do
  let self1 := { self with buffer_ := buf.add_shared self.buffer_ message }
  let t ← trigger_guard_condition SubscribedT rcl self1
  return { value := (), self := t.self, calls := Call.add_shared message :: t.calls }

/-- The overload `provide_intra_process_data(DataUniquePtr)`. -/
def provide_intra_process_data_unique {SubscribedT : Type}
    (buf : IntraProcessBuffer B SubscribedT) (rcl : Rcl G C)
    (self : SubscriptionIntraProcessBuffer B G Q)
    (message : UniquePtr SubscribedT) :
    Except String (Outcome (SubscriptionIntraProcessBuffer B G Q) Unit SubscribedT) := do
  let self1 := { self with buffer_ := buf.add_unique self.buffer_ message }
  let t ← trigger_guard_condition SubscribedT rcl self1
  return { value := (), self := t.self, calls := Call.add_unique message :: t.calls }

/-- Overload resolution of `provide_intra_process_data` on the handle kind. -/
def provide_intra_process_data {SubscribedT : Type}
    (buf : IntraProcessBuffer B SubscribedT) (rcl : Rcl G C)
    (self : SubscriptionIntraProcessBuffer B G Q) :
    DataHandle SubscribedT → Except String (Outcome (SubscriptionIntraProcessBuffer B G Q) Unit SubscribedT)
  | .shared message => provide_intra_process_data_shared buf rcl self message
  | .unique message => provide_intra_process_data_unique buf rcl self message

/-- A run of `provide_intra_process_data` calls on one adapter, first handle
first; the trace is the concatenation of the traces of the calls, and a call
that throws ends the run. -/
def provideAll {SubscribedT : Type} (buf : IntraProcessBuffer B SubscribedT)
    (rcl : Rcl G C) :
    SubscriptionIntraProcessBuffer B G Q → List (DataHandle SubscribedT) →
    Except String (Outcome (SubscriptionIntraProcessBuffer B G Q) Unit SubscribedT)
  | self, [] => return { value := (), self := self, calls := [] }
  | self, handle :: handles => do
    let o ← provide_intra_process_data buf rcl self handle
    let r ← provideAll buf rcl o.self handles
    return { value := (), self := r.self, calls := o.calls ++ r.calls }

/-- The method `use_take_shared_method`. -/
def use_take_shared_method {SubscribedT : Type} (buf : IntraProcessBuffer B SubscribedT)
    (self : SubscriptionIntraProcessBuffer B G Q) :
    Except String (Outcome (SubscriptionIntraProcessBuffer B G Q) Bool SubscribedT) :=
  Except.ok
    { value := buf.use_take_shared_method self.buffer_, self := self,
      calls := [Call.use_take_shared_method] }

end SubscriptionIntraProcessBuffer

/-! ### Test doubles for the collaborators -/

/-- A guard-condition API whose three fallible functions return fixed codes;
the guard condition state counts the triggers received. -/
def stubRcl (init_ret fini_ret trigger_ret : rcl_ret_t) : Rcl Nat Unit where
  rcl_get_zero_initialized_guard_condition := 0
  rcl_guard_condition_init := fun gc _ => (gc, init_ret)
  rcl_guard_condition_fini := fun gc => (gc, fini_ret)
  rcl_trigger_guard_condition := fun gc => (gc + 1, trigger_ret)
  rcutils_get_error_string := "error not set"

/-- A buffer of capacity one which keeps the newest message only. -/
def keepLastBuffer : IntraProcessBuffer (List (Option Nat)) Nat where
  add_shared := fun _ message => [message.get]
  add_unique := fun _ message => [message.get]
  has_data := fun b => !b.isEmpty
  use_take_shared_method := fun _ => true

/-- A buffer factory that returns an empty `keepLastBuffer` state for every
buffer type and depth. -/
def stubFactory (_buffer_type : Bool) (_qos_profile : Nat) (_allocator : Unit) :
    List (Option Nat) :=
  []

/-- An adapter over the test doubles holding the given buffer state. -/
def stubAdapter (buffer : List (Option Nat)) :
    SubscriptionIntraProcessBuffer (List (Option Nat)) Nat Nat where
  topic_name_ := "topic"
  qos_profile_ := 10
  gc_ := 0
  buffer_ := buffer

end experimental

/-! ## The events queue -/

namespace executors
namespace detail

/-- Modelled from the spec: the enumeration `ExecutorEventType` of
`events_executor_event_types.hpp` (not among the sources), the readiness
categories subscription, timer, client, service, waitable and generic
callback group. -/
inductive ExecutorEventType where
  | SUBSCRIPTION_EVENT
  | TIMER_EVENT
  | CLIENT_EVENT
  | SERVICE_EVENT
  | WAITABLE_EVENT
  | CALLBACK_GROUP_EVENT
deriving DecidableEq, Repr

/-- Modelled from the spec: the record `ExecutorEvent` of
`events_executor_event_types.hpp` (not among the sources), a value type with
the source identity (an address, here a number), the generation-scoped entity
id, the kind and the coalesced count.  The field names and their order are
those used by the test. -/
structure ExecutorEvent where
  exec_entity_id : Nat
  gen_entity_id : Int
  type : ExecutorEventType
  num_events : Nat
deriving DecidableEq, Repr

/-- Modelled from the spec: the state of `SimpleEventsQueue`
(`simple_events_queue.hpp` is not among the sources), an unbounded ordered
sequence of event records, head first.  The lock and the condition variable
have no state in a sequential run. -/
structure SimpleEventsQueue where
  event_queue_ : List ExecutorEvent
deriving DecidableEq, Repr

namespace SimpleEventsQueue

/-- Modelled from the spec: the constructor of `SimpleEventsQueue` (not among
the sources); a new queue holds no record. -/
def new : SimpleEventsQueue :=
  { event_queue_ := [] }

/-- Modelled from the spec: `enqueue(event)` of `SimpleEventsQueue` (not among
the sources) appends to the tail and always succeeds. -/
def enqueue (q : SimpleEventsQueue) (event : ExecutorEvent) : SimpleEventsQueue :=
  { event_queue_ := q.event_queue_ ++ [event] }

/-- Modelled from the spec: the blocking `dequeue(event)` of
`SimpleEventsQueue` (not among the sources).  With an event available it
removes and returns the head (the C++ call returns `true`); on an empty queue
it blocks, which in a run without another thread means it does not return:
`none`. -/
def dequeue (q : SimpleEventsQueue) : Option (ExecutorEvent × SimpleEventsQueue) :=
  match q.event_queue_ with
  | [] => none
  | event :: rest => some (event, { event_queue_ := rest })

/-- The outcome of a timed dequeue: the event taken, if any, and the queue
afterwards. -/
structure TimedDequeue where
  event : Option ExecutorEvent
  queue : SimpleEventsQueue
deriving DecidableEq, Repr

/-- The boolean returned by the timed dequeue: success exactly when an event
was taken. -/
def TimedDequeue.ret (d : TimedDequeue) : Bool :=
  d.event.isSome

/-- Modelled from the spec: `dequeue(event, timeout)` of `SimpleEventsQueue`
(not among the sources), the timeout in nanoseconds.  It returns success with
the head event if one is available, and failure if the timeout elapses with
the queue still empty, which without another thread is the case exactly when
the queue is empty at the call. -/
def dequeue_for (q : SimpleEventsQueue) (_timeout : Nat) : TimedDequeue :=
  match q.event_queue_ with
  | [] => { event := none, queue := q }
  | event :: rest => { event := some event, queue := { event_queue_ := rest } }

/-- Modelled from the spec: `empty()` of `SimpleEventsQueue` (not among the
sources), whether no record is held. -/
def empty (q : SimpleEventsQueue) : Bool :=
  q.event_queue_.isEmpty

/-- Modelled from the spec: `size()` of `SimpleEventsQueue` (not among the
sources), the count of records not yet dequeued. -/
def size (q : SimpleEventsQueue) : Nat :=
  q.event_queue_.length

/-- A run of enqueue calls, first event first. -/
def enqueueAll (q : SimpleEventsQueue) : List ExecutorEvent → SimpleEventsQueue
  | [] => q
  | event :: events => enqueueAll (q.enqueue event) events

/-- A run of `n` blocking dequeue calls: the events returned, in the order of
the calls, and the queue afterwards; `none` when one of the calls blocks. -/
def dequeueN : Nat → SimpleEventsQueue → Option (List ExecutorEvent × SimpleEventsQueue)
  | 0, q => some ([], q)
  | n + 1, q =>
    match q.dequeue with
    | none => none
    | some (event, q1) =>
      match dequeueN n q1 with
      | none => none
      | some (events, q2) => some (event :: events, q2)

/-- A run of `n` timed dequeue calls with the same timeout: the outcome of
each call, in the order of the calls, and the queue afterwards. -/
def dequeueForN (timeout : Nat) : Nat → SimpleEventsQueue →
    List (Option ExecutorEvent) × SimpleEventsQueue
  | 0, q => ([], q)
  | n + 1, q =>
    let d := q.dequeue_for timeout
    let r := dequeueForN timeout n d.queue
    (d.event :: r.1, r.2)

/-- The loop `while (!queue->empty()) { ret = queue->dequeue(event); }` of
the test, with a bound on the number of iterations: the value of `ret` at
each iteration and the queue at exit; `none` when the bound is reached
before the loop exits or a dequeue blocks. -/
def drain : Nat → SimpleEventsQueue → Option (List Bool × SimpleEventsQueue)
  | 0, q => if q.empty then some ([], q) else none
  | fuel + 1, q =>
    if q.empty then some ([], q)
    else
      match q.dequeue with
      | none => none
      | some (_, q1) =>
        match drain fuel q1 with
        | none => none
        | some (rets, q2) => some (true :: rets, q2)

/-- The states of the queue reachable from a new queue by enqueue, blocking
dequeue on a non-empty queue, and timed dequeue. -/
inductive Reachable : SimpleEventsQueue → Prop where
  | new : Reachable SimpleEventsQueue.new
  | enqueue (q : SimpleEventsQueue) (event : ExecutorEvent) :
      Reachable q → Reachable (q.enqueue event)
  | dequeue (q q1 : SimpleEventsQueue) (event : ExecutorEvent) :
      Reachable q → q.dequeue = some (event, q1) → Reachable q1
  | dequeue_for (q : SimpleEventsQueue) (timeout : Nat) :
      Reachable q → Reachable (q.dequeue_for timeout).queue

end SimpleEventsQueue

end detail
end executors

end rclcpp

/-! ## Properties of the adapter -/

namespace rclcpp
namespace experimental

open SubscriptionIntraProcessBuffer

/-- C1: for a message type whose `TypeAdapter` is not specialized, every
buffer, guard-condition API, adapter state and handle: the shared overload of
`provide_intra_process_message` returns normally after exactly the calls
`add_shared` of that handle and then one trigger, the owned overload after
exactly `add_unique` of that handle and then one trigger; the buffer
afterwards is the one produced by the matching insertion and the guard
condition the one produced by the trigger. -/
theorem provide_intra_process_message_inserts_then_triggers
    {B G C Q : Type} (MessageT : Type) (buf : IntraProcessBuffer B MessageT)
    (rcl : Rcl G C) (self : SubscriptionIntraProcessBuffer B G Q)
    (shared : ConstSharedPtr MessageT) (owned : UniquePtr MessageT) :
    (TypeAdapter.primary MessageT).is_specialized = false ∧
    provide_intra_process_message_shared (TypeAdapter.primary MessageT) buf rcl self shared =
      Except.ok
        { value := (),
          self := { self with
            buffer_ := buf.add_shared self.buffer_ shared,
            gc_ := (rcl.rcl_trigger_guard_condition self.gc_).1 },
          calls := [Call.add_shared shared, Call.rcl_trigger_guard_condition] } ∧
    provide_intra_process_message_unique (TypeAdapter.primary MessageT) buf rcl self owned =
      Except.ok
        { value := (),
          self := { self with
            buffer_ := buf.add_unique self.buffer_ owned,
            gc_ := (rcl.rcl_trigger_guard_condition self.gc_).1 },
          calls := [Call.add_unique owned, Call.rcl_trigger_guard_condition] } :=
  ⟨rfl, rfl, rfl⟩

/-- C2: for a specialized `TypeAdapter`, both overloads of
`provide_intra_process_message` return normally with the adapter (buffer and
guard condition) unchanged and without any collaborator call: no insertion
and no trigger. -/
theorem provide_intra_process_message_adapted_noop
    {B G C Q : Type} (custom_type ros_message_type : Type)
    (buf : IntraProcessBuffer B custom_type) (rcl : Rcl G C)
    (self : SubscriptionIntraProcessBuffer B G Q)
    (shared : ConstSharedPtr ros_message_type) (owned : UniquePtr ros_message_type) :
    (TypeAdapter.specialization custom_type ros_message_type).is_specialized = true ∧
    provide_intra_process_message_shared
        (TypeAdapter.specialization custom_type ros_message_type) buf rcl self shared =
      Except.ok { value := (), self := self, calls := [] } ∧
    provide_intra_process_message_unique
        (TypeAdapter.specialization custom_type ros_message_type) buf rcl self owned =
      Except.ok { value := (), self := self, calls := [] } :=
  ⟨rfl, rfl, rfl⟩

/-- C3: for every adapter state and every wait-set argument, null included,
`is_ready` returns normally with the value `has_data` of the buffer, its
result is the same for any other wait-set argument and for the null one, the
adapter is left unchanged, and its trace holds no insertion and no trigger. -/
theorem is_ready_eq_has_data
    {B G Q W SubscribedT : Type} (buf : IntraProcessBuffer B SubscribedT)
    (self : SubscriptionIntraProcessBuffer B G Q) (wait_set other : Option W) :
    ∃ o, is_ready buf self wait_set = Except.ok o ∧
      o.value = buf.has_data self.buffer_ ∧
      o.self = self ∧
      countAdds o.calls = 0 ∧ countTriggers o.calls = 0 ∧
      is_ready buf self other = Except.ok o ∧
      is_ready buf self (none : Option W) = Except.ok o :=
  ⟨_, rfl, rfl, rfl, rfl, rfl, rfl, rfl⟩

/-- C4: the constructor throws a runtime error if and only if
`rcl_guard_condition_init`, called on the zero-initialized guard condition
with the context, returns a code other than `RCL_RET_OK`; otherwise it
returns an adapter holding the buffer made by the factory for the requested
buffer type, QoS and allocator, the initialized guard condition, the topic
name and the QoS. -/
theorem new_throws_iff_guard_condition_init_fails
    {B G C Q A BT : Type} (SubscribedT : Type)
    (create_intra_process_buffer : BT → Q → A → B) (rcl : Rcl G C)
    (allocator : A) (context : C) (topic_name : String) (qos_profile : Q)
    (buffer_type : BT) :
    ((∃ what, new SubscribedT create_intra_process_buffer rcl allocator context
        topic_name qos_profile buffer_type = Except.error what) ↔
      (rcl.rcl_guard_condition_init rcl.rcl_get_zero_initialized_guard_condition
        context).2 ≠ RCL_RET_OK) ∧
    new SubscribedT create_intra_process_buffer rcl allocator context
        topic_name qos_profile buffer_type =
      (if (rcl.rcl_guard_condition_init rcl.rcl_get_zero_initialized_guard_condition
          context).2 = RCL_RET_OK then
        Except.ok
          { value := (),
            self :=
              { topic_name_ := topic_name, qos_profile_ := qos_profile,
                gc_ := (rcl.rcl_guard_condition_init
                  rcl.rcl_get_zero_initialized_guard_condition context).1,
                buffer_ := create_intra_process_buffer buffer_type qos_profile allocator },
            calls := [Call.create_intra_process_buffer, Call.rcl_guard_condition_init] }
      else
        Except.error
          "SubscriptionIntraProcessBuffer init error initializing guard condition") := by
  by_cases h : (rcl.rcl_guard_condition_init rcl.rcl_get_zero_initialized_guard_condition
      context).2 = RCL_RET_OK
  · have h1 : ¬ (RCL_RET_OK ≠ (rcl.rcl_guard_condition_init
        rcl.rcl_get_zero_initialized_guard_condition context).2) := by
      simp [h]
    refine ⟨?_, ?_⟩
    · constructor
      · rintro ⟨what, hw⟩
        simp only [new, if_neg h1] at hw
        cases hw
      · intro hne
        exact absurd h hne
    · simp only [new, if_neg h1, if_pos h]
  · have h1 : RCL_RET_OK ≠ (rcl.rcl_guard_condition_init
        rcl.rcl_get_zero_initialized_guard_condition context).2 := fun e => h e.symm
    refine ⟨?_, ?_⟩
    · constructor
      · intro _
        exact h
      · intro _
        refine ⟨"SubscriptionIntraProcessBuffer init error initializing guard condition", ?_⟩
        simp only [new, if_pos h1]
    · simp only [new, if_pos h1, if_neg h]

/-- The instance of `new_throws_iff_guard_condition_init_fails` at a guard
condition API whose init returns 1, where the constructor throws, and at one
whose init returns `RCL_RET_OK`, where it does not. -/
theorem new_throws_iff_guard_condition_init_fails_witness :
    (∃ what, new Nat stubFactory (stubRcl 1 0 0) () () "topic" 10 true =
      Except.error what) ∧
    ¬ (∃ what, new Nat stubFactory (stubRcl 0 0 0) () () "topic" 10 true =
      Except.error what) :=
  ⟨(new_throws_iff_guard_condition_init_fails Nat stubFactory (stubRcl 1 0 0) () ()
      "topic" 10 true).1.2 (by decide),
   fun h => (new_throws_iff_guard_condition_init_fails Nat stubFactory (stubRcl 0 0 0) () ()
      "topic" 10 true).1.1 h (by decide)⟩

/-- C9: for every return code of `rcl_guard_condition_fini` the destructor
returns normally; its trace starts with the single call of
`rcl_guard_condition_fini`, followed by one error log entry when the code is
not `RCL_RET_OK` and by nothing when it is. -/
theorem delete_never_throws
    {B G C Q : Type} (SubscribedT : Type) (rcl : Rcl G C)
    (self : SubscriptionIntraProcessBuffer B G Q) :
    ∃ o, delete SubscribedT rcl self = Except.ok o ∧
      countFinis o.calls = 1 ∧
      o.calls =
        Call.rcl_guard_condition_fini ::
          (if (rcl.rcl_guard_condition_fini self.gc_).2 = RCL_RET_OK then []
           else [Call.RCUTILS_LOG_ERROR_NAMED "rclcpp"
             "Failed to destroy guard condition: %s" rcl.rcutils_get_error_string]) ∧
      countLogs o.calls =
        (if (rcl.rcl_guard_condition_fini self.gc_).2 = RCL_RET_OK then 0 else 1) ∧
      countAdds o.calls = 0 ∧ countTriggers o.calls = 0 := by
  by_cases h : (rcl.rcl_guard_condition_fini self.gc_).2 = RCL_RET_OK
  · have h1 : ¬ ((rcl.rcl_guard_condition_fini self.gc_).2 ≠ RCL_RET_OK) := by simp [h]
    refine ⟨
      { value := (),
        self := { self with gc_ := (rcl.rcl_guard_condition_fini self.gc_).1 },
        calls := [Call.rcl_guard_condition_fini] }, ?_, ?_⟩
    · simp only [delete, if_neg h1]
    · simp [h, countFinis, countLogs, countAdds, countTriggers]
  · refine ⟨
      { value := (),
        self := { self with gc_ := (rcl.rcl_guard_condition_fini self.gc_).1 },
        calls := [Call.rcl_guard_condition_fini,
          Call.RCUTILS_LOG_ERROR_NAMED "rclcpp" "Failed to destroy guard condition: %s"
            rcl.rcutils_get_error_string] }, ?_, ?_⟩
    · simp only [delete, if_pos h]
    · simp [h, countFinis, countLogs, countAdds, countTriggers]

/-- Triggers of a concatenated trace. -/
theorem countTriggers_append {T : Type} (xs ys : List (Call T)) :
    countTriggers (xs ++ ys) = countTriggers xs + countTriggers ys := by
  induction xs with
  | nil => simp [countTriggers]
  | cons c cs ih =>
    cases c <;> simp [countTriggers, ih]
    omega

/-- Insertions of a concatenated trace. -/
theorem countAdds_append {T : Type} (xs ys : List (Call T)) :
    countAdds (xs ++ ys) = countAdds xs + countAdds ys := by
  induction xs with
  | nil => simp [countAdds]
  | cons c cs ih => cases c <;> simp [countAdds, ih] <;> omega

/-- One `provide_intra_process_data` call returns normally with one insertion
and one trigger in its trace. -/
theorem provide_intra_process_data_ok
    {B G C Q SubscribedT : Type} (buf : IntraProcessBuffer B SubscribedT)
    (rcl : Rcl G C) (self : SubscriptionIntraProcessBuffer B G Q)
    (handle : DataHandle SubscribedT) :
    ∃ o, provide_intra_process_data buf rcl self handle = Except.ok o ∧
      countAdds o.calls = 1 ∧ countTriggers o.calls = 1 := by
  cases handle with
  | shared message => exact ⟨_, rfl, rfl, rfl⟩
  | unique message => exact ⟨_, rfl, rfl, rfl⟩

/-- A run of `provide_intra_process_data` calls returns normally with as many
insertions and as many triggers as calls. -/
theorem provideAll_ok
    {B G C Q SubscribedT : Type} (buf : IntraProcessBuffer B SubscribedT)
    (rcl : Rcl G C) (handles : List (DataHandle SubscribedT)) :
    ∀ self : SubscriptionIntraProcessBuffer B G Q,
      ∃ o, provideAll buf rcl self handles = Except.ok o ∧
        countAdds o.calls = handles.length ∧
        countTriggers o.calls = handles.length := by
  induction handles with
  | nil =>
    intro self
    exact ⟨_, rfl, rfl, rfl⟩
  | cons handle handles ih =>
    intro self
    obtain ⟨o, ho, ha, ht⟩ := provide_intra_process_data_ok buf rcl self handle
    obtain ⟨r, hr, hra, hrt⟩ := ih o.self
    refine ⟨{ value := (), self := r.self, calls := o.calls ++ r.calls }, ?_, ?_, ?_⟩
    · simp only [provideAll, ho, hr, bind, Except.bind, pure, Except.pure]
    · simp only [countAdds_append, ha, hra, List.length_cons]
      omega
    · simp only [countTriggers_append, ht, hrt, List.length_cons]
      omega

/-- C10: for every buffer (whatever it retains on insertion), every adapter
state, every handle and every return code of `rcl_trigger_guard_condition`:
each overload of `provide_intra_process_data` returns normally after exactly
one insertion of the handle followed by exactly one trigger, the buffer
afterwards is the one produced by the insertion and the return code of the
trigger is not looked at; and a run of calls on any list of handles returns
normally with as many triggers, and as many insertions, as calls. -/
theorem provide_intra_process_data_always_triggers
    {B G C Q SubscribedT : Type} (buf : IntraProcessBuffer B SubscribedT)
    (rcl : Rcl G C) (self : SubscriptionIntraProcessBuffer B G Q)
    (shared : ConstSharedPtr SubscribedT) (owned : UniquePtr SubscribedT)
    (handles : List (DataHandle SubscribedT)) :
    provide_intra_process_data_shared buf rcl self shared =
      Except.ok
        { value := (),
          self := { self with
            buffer_ := buf.add_shared self.buffer_ shared,
            gc_ := (rcl.rcl_trigger_guard_condition self.gc_).1 },
          calls := [Call.add_shared shared, Call.rcl_trigger_guard_condition] } ∧
    provide_intra_process_data_unique buf rcl self owned =
      Except.ok
        { value := (),
          self := { self with
            buffer_ := buf.add_unique self.buffer_ owned,
            gc_ := (rcl.rcl_trigger_guard_condition self.gc_).1 },
          calls := [Call.add_unique owned, Call.rcl_trigger_guard_condition] } ∧
    ∃ o, provideAll buf rcl self handles = Except.ok o ∧
      countTriggers o.calls = handles.length ∧
      countAdds o.calls = handles.length := by
  refine ⟨rfl, rfl, ?_⟩
  obtain ⟨o, ho, ha, ht⟩ := provideAll_ok buf rcl handles self
  exact ⟨o, ho, ht, ha⟩

/-- Three messages offered to a buffer that keeps one, with a trigger that
reports an error each time: three triggers reach the guard condition and the
buffer holds the last message. -/
theorem provideAll_keepLast_example :
    provideAll keepLastBuffer (stubRcl 0 0 1) (stubAdapter [])
        [DataHandle.shared ⟨some 1⟩, DataHandle.unique ⟨some 2⟩, DataHandle.shared ⟨some 3⟩] =
      Except.ok
        { value := (),
          self := { stubAdapter [some 3] with gc_ := 3 },
          calls := [Call.add_shared ⟨some 1⟩, Call.rcl_trigger_guard_condition,
            Call.add_unique ⟨some 2⟩, Call.rcl_trigger_guard_condition,
            Call.add_shared ⟨some 3⟩, Call.rcl_trigger_guard_condition] } :=
  rfl

end experimental
end rclcpp

/-! ## Properties of the events queue -/

namespace rclcpp
namespace executors
namespace detail

open SimpleEventsQueue

/-- The records held after a run of enqueue calls. -/
theorem enqueueAll_event_queue (events : List ExecutorEvent) :
    ∀ q : SimpleEventsQueue,
      (enqueueAll q events).event_queue_ = q.event_queue_ ++ events := by
  induction events with
  | nil => intro q; simp [enqueueAll]
  | cons event events ih => intro q; simp [enqueueAll, ih, enqueue]

/-- The queue after a run of enqueue calls on a new queue. -/
theorem enqueueAll_new (events : List ExecutorEvent) :
    enqueueAll SimpleEventsQueue.new events = { event_queue_ := events } := by
  have h := enqueueAll_event_queue events SimpleEventsQueue.new
  cases hq : enqueueAll SimpleEventsQueue.new events with
  | mk l =>
    rw [hq] at h
    simpa [SimpleEventsQueue.new] using h

/-- As many blocking dequeue calls as leading records return them in order. -/
theorem dequeueN_append (events rest : List ExecutorEvent) :
    dequeueN events.length { event_queue_ := events ++ rest } =
      some (events, { event_queue_ := rest }) := by
  induction events with
  | nil => rfl
  | cons event events ih =>
    simp only [List.length_cons, List.cons_append, dequeueN, dequeue, ih]

/-- As many timed dequeue calls as leading records return them in order. -/
theorem dequeueForN_append (timeout : Nat) (events rest : List ExecutorEvent) :
    dequeueForN timeout events.length { event_queue_ := events ++ rest } =
      (events.map some, { event_queue_ := rest }) := by
  induction events with
  | nil => rfl
  | cons event events ih =>
    simp only [List.length_cons, List.cons_append, dequeueForN, dequeue_for, ih, List.map_cons]

/-- With a bound equal to the size, the drain loop exits with every dequeue
successful and a queue holding no record. -/
theorem drain_size (events : List ExecutorEvent) :
    drain events.length { event_queue_ := events } =
      some (List.replicate events.length true, SimpleEventsQueue.new) := by
  induction events with
  | nil => rfl
  | cons event events ih =>
    simp only [List.length_cons, drain, SimpleEventsQueue.empty, List.isEmpty_cons, dequeue, ih,
      List.replicate_succ]
    rfl

/-- C5: for every finite sequence of events enqueued onto a new queue, as
many blocking dequeue calls all return, and as many timed dequeue calls all
succeed, giving the events in the order of their enqueue, with the four
fields of each (`exec_entity_id`, `gen_entity_id`, `type`, `num_events`) as
enqueued, and leave the queue empty; and one event enqueued onto a new queue
is returned with its four fields unchanged by the next dequeue. -/
theorem dequeue_order_is_enqueue_order
    (events : List ExecutorEvent) (push_event : ExecutorEvent) (timeout : Nat) :
    (∃ out, dequeueN events.length (enqueueAll SimpleEventsQueue.new events) =
        some (out, SimpleEventsQueue.new) ∧
      out = events ∧
      out.map ExecutorEvent.exec_entity_id = events.map ExecutorEvent.exec_entity_id ∧
      out.map ExecutorEvent.gen_entity_id = events.map ExecutorEvent.gen_entity_id ∧
      out.map ExecutorEvent.type = events.map ExecutorEvent.type ∧
      out.map ExecutorEvent.num_events = events.map ExecutorEvent.num_events) ∧
    dequeueForN timeout events.length (enqueueAll SimpleEventsQueue.new events) =
      (events.map some, SimpleEventsQueue.new) ∧
    (∃ event, (SimpleEventsQueue.new.enqueue push_event).dequeue =
        some (event, SimpleEventsQueue.new) ∧
      push_event.exec_entity_id = event.exec_entity_id ∧
      push_event.gen_entity_id = event.gen_entity_id ∧
      push_event.type = event.type ∧
      push_event.num_events = event.num_events) ∧
    (SimpleEventsQueue.new.enqueue push_event).dequeue_for timeout =
      { event := some push_event, queue := SimpleEventsQueue.new } := by
  refine ⟨⟨events, ?_, rfl, rfl, rfl, rfl, rfl⟩, ?_, ⟨push_event, rfl, rfl, rfl, rfl, rfl⟩, rfl⟩
  · rw [enqueueAll_new]
    have h := dequeueN_append events []
    simpa [SimpleEventsQueue.new] using h
  · rw [enqueueAll_new]
    have h := dequeueForN_append timeout events []
    simpa [SimpleEventsQueue.new] using h

/-- C6: a new queue has size 0; after any run of enqueue calls on a new queue
the size is the number of calls, and on any queue the size grows by that
number; on a non-empty queue `q` the blocking dequeue returns and the
zero-timeout dequeue returns true, each leaving the size one less; draining
with a bound equal to the size leaves size 0.  The scenario of the test, for
any stub event: ten enqueue calls give the sizes 1 to 10, a blocking dequeue
gives 9, a zero-timeout dequeue succeeds and gives 8, the drain loop makes 8
successful dequeues and leaves size 0, and one more zero-timeout dequeue
fails. -/
theorem size_counts_events_not_dequeued
    (q : SimpleEventsQueue) (hq : q.empty = false)
    (events : List ExecutorEvent) (stub_event : ExecutorEvent) :
    SimpleEventsQueue.new.size = 0 ∧
    (enqueueAll SimpleEventsQueue.new events).size = events.length ∧
    (enqueueAll q events).size = q.size + events.length ∧
    (∃ event q1, q.dequeue = some (event, q1) ∧ q1.size = q.size - 1 ∧ q.size = q1.size + 1) ∧
    ((q.dequeue_for 0).ret = true ∧ (q.dequeue_for 0).queue.size = q.size - 1) ∧
    (∃ rets q0, drain q.size q = some (rets, q0) ∧ q0.size = 0) ∧
    ((List.range 10).map
        (fun i => (enqueueAll SimpleEventsQueue.new (List.replicate (i + 1) stub_event)).size) =
      [1, 2, 3, 4, 5, 6, 7, 8, 9, 10]) ∧
    (∃ event q9 rets q0,
      (enqueueAll SimpleEventsQueue.new (List.replicate 10 stub_event)).dequeue =
        some (event, q9) ∧
      q9.size = 9 ∧
      (q9.dequeue_for 0).ret = true ∧
      (q9.dequeue_for 0).queue.size = 8 ∧
      drain 8 (q9.dequeue_for 0).queue = some (rets, q0) ∧
      rets = List.replicate 8 true ∧
      q0.empty = true ∧ q0.size = 0 ∧
      (q0.dequeue_for 0).ret = false) := by
  obtain ⟨l⟩ := q
  cases l with
  | nil => simp [SimpleEventsQueue.empty] at hq
  | cons head rest =>
    refine ⟨rfl, ?_, ?_, ⟨head, ⟨rest⟩, rfl, rfl, rfl⟩, ⟨rfl, rfl⟩, ?_, rfl, ?_⟩
    · rw [enqueueAll_new]
      rfl
    · simp only [size, enqueueAll_event_queue, List.length_append]
    · exact ⟨_, _, drain_size (head :: rest), rfl⟩
    · exact ⟨stub_event, ⟨List.replicate 9 stub_event⟩, List.replicate 8 true,
        SimpleEventsQueue.new, rfl, rfl, rfl, rfl, rfl, rfl, rfl, rfl, rfl⟩

/-- The instance of `size_counts_events_not_dequeued` at a queue of two
events and a run of three further enqueue calls. -/
theorem size_counts_events_not_dequeued_witness :
    (SimpleEventsQueue.mk
        [⟨7, 99, ExecutorEventType.SUBSCRIPTION_EVENT, 1⟩,
         ⟨7, 100, ExecutorEventType.TIMER_EVENT, 1⟩]).empty = false ∧
    (enqueueAll (SimpleEventsQueue.mk
        [⟨7, 99, ExecutorEventType.SUBSCRIPTION_EVENT, 1⟩,
         ⟨7, 100, ExecutorEventType.TIMER_EVENT, 1⟩])
      (List.replicate 3 ⟨0, 0, ExecutorEventType.CLIENT_EVENT, 1⟩)).size = 2 + 3 :=
  ⟨by decide,
    (size_counts_events_not_dequeued
      (SimpleEventsQueue.mk
        [⟨7, 99, ExecutorEventType.SUBSCRIPTION_EVENT, 1⟩,
         ⟨7, 100, ExecutorEventType.TIMER_EVENT, 1⟩])
      (by decide)
      (List.replicate 3 ⟨0, 0, ExecutorEventType.CLIENT_EVENT, 1⟩)
      ⟨0, 0, ExecutorEventType.SUBSCRIPTION_EVENT, 1⟩).2.2.1⟩

/-- C7: on every empty queue the zero-timeout dequeue returns false, takes no
event and leaves the queue as it is, empty with size 0; this holds for the
new queue and for the queue left by draining any queue; on every non-empty
queue the zero-timeout dequeue returns true with the head event and leaves
the records behind the head. -/
theorem dequeue_for_zero_timeout (q : SimpleEventsQueue) :
    (q.empty = true →
      (q.dequeue_for 0).ret = false ∧ (q.dequeue_for 0).event = none ∧
      (q.dequeue_for 0).queue = q ∧
      (q.dequeue_for 0).queue.empty = true ∧ (q.dequeue_for 0).queue.size = 0) ∧
    (SimpleEventsQueue.new.empty = true ∧
      ∃ rets q0, drain q.size q = some (rets, q0) ∧ q0.empty = true) ∧
    (q.empty = false →
      ∃ head rest, q.event_queue_ = head :: rest ∧
        (q.dequeue_for 0).ret = true ∧ (q.dequeue_for 0).event = some head ∧
        (q.dequeue_for 0).queue = { event_queue_ := rest }) := by
  obtain ⟨l⟩ := q
  cases l with
  | nil =>
    refine ⟨fun _ => ⟨rfl, rfl, rfl, rfl, rfl⟩, ⟨rfl, _, _, drain_size [], rfl⟩, ?_⟩
    intro h
    simp [SimpleEventsQueue.empty] at h
  | cons head rest =>
    refine ⟨?_, ⟨rfl, _, _, drain_size (head :: rest), rfl⟩, ?_⟩
    · intro h
      simp [SimpleEventsQueue.empty] at h
    · intro _
      exact ⟨head, rest, rfl, rfl, rfl, rfl⟩

/-- The instance of `dequeue_for_zero_timeout` at the new queue and at a
queue of two events. -/
theorem dequeue_for_zero_timeout_witness :
    (SimpleEventsQueue.new.empty = true ∧
      (SimpleEventsQueue.new.dequeue_for 0).ret = false ∧
      (SimpleEventsQueue.new.dequeue_for 0).queue.size = 0) ∧
    ((SimpleEventsQueue.mk
        [⟨7, 99, ExecutorEventType.SUBSCRIPTION_EVENT, 1⟩,
         ⟨7, 100, ExecutorEventType.TIMER_EVENT, 1⟩]).empty = false ∧
      ∃ head rest,
        (SimpleEventsQueue.mk
          [⟨7, 99, ExecutorEventType.SUBSCRIPTION_EVENT, 1⟩,
           ⟨7, 100, ExecutorEventType.TIMER_EVENT, 1⟩]).event_queue_ = head :: rest ∧
        ((SimpleEventsQueue.mk
          [⟨7, 99, ExecutorEventType.SUBSCRIPTION_EVENT, 1⟩,
           ⟨7, 100, ExecutorEventType.TIMER_EVENT, 1⟩]).dequeue_for 0).ret = true ∧
        ((SimpleEventsQueue.mk
          [⟨7, 99, ExecutorEventType.SUBSCRIPTION_EVENT, 1⟩,
           ⟨7, 100, ExecutorEventType.TIMER_EVENT, 1⟩]).dequeue_for 0).event = some head ∧
        ((SimpleEventsQueue.mk
          [⟨7, 99, ExecutorEventType.SUBSCRIPTION_EVENT, 1⟩,
           ⟨7, 100, ExecutorEventType.TIMER_EVENT, 1⟩]).dequeue_for 0).queue =
          { event_queue_ := rest }) :=
  ⟨⟨by decide,
     ((dequeue_for_zero_timeout SimpleEventsQueue.new).1 (by decide)).1,
     ((dequeue_for_zero_timeout SimpleEventsQueue.new).1 (by decide)).2.2.2.2⟩,
   ⟨by decide,
     (dequeue_for_zero_timeout
       (SimpleEventsQueue.mk
         [⟨7, 99, ExecutorEventType.SUBSCRIPTION_EVENT, 1⟩,
          ⟨7, 100, ExecutorEventType.TIMER_EVENT, 1⟩])).2.2 (by decide)⟩⟩

/-- C8: in every state of the queue reachable from a new queue by enqueue,
blocking dequeue on a non-empty queue and timed dequeue, `empty()` is true if
and only if `size()` is 0. -/
theorem empty_iff_size_zero (q : SimpleEventsQueue) (hq : Reachable q) :
    q.empty = true ↔ q.size = 0 := by
  induction hq with
  | new => simp [SimpleEventsQueue.new, SimpleEventsQueue.empty, size]
  | enqueue q event _ _ => simp [enqueue, SimpleEventsQueue.empty, size]
  | dequeue q q1 event _ _ _ =>
    obtain ⟨l⟩ := q1
    cases l <;> simp [SimpleEventsQueue.empty, size]
  | dequeue_for q timeout _ _ =>
    generalize (q.dequeue_for timeout).queue = q1
    obtain ⟨l⟩ := q1
    cases l <;> simp [SimpleEventsQueue.empty, size]

/-- The instance of `empty_iff_size_zero` at the queue reached by two enqueue
calls and a timed dequeue. -/
theorem empty_iff_size_zero_witness :
    Reachable
      (((SimpleEventsQueue.new.enqueue ⟨7, 99, ExecutorEventType.SUBSCRIPTION_EVENT, 1⟩).enqueue
        ⟨7, 100, ExecutorEventType.TIMER_EVENT, 1⟩).dequeue_for 5).queue ∧
    ((((SimpleEventsQueue.new.enqueue ⟨7, 99, ExecutorEventType.SUBSCRIPTION_EVENT, 1⟩).enqueue
        ⟨7, 100, ExecutorEventType.TIMER_EVENT, 1⟩).dequeue_for 5).queue.empty = true ↔
     (((SimpleEventsQueue.new.enqueue ⟨7, 99, ExecutorEventType.SUBSCRIPTION_EVENT, 1⟩).enqueue
        ⟨7, 100, ExecutorEventType.TIMER_EVENT, 1⟩).dequeue_for 5).queue.size = 0) :=
  ⟨Reachable.dequeue_for _ 5 (Reachable.enqueue _ _ (Reachable.enqueue _ _ Reachable.new)),
   empty_iff_size_zero _
     (Reachable.dequeue_for _ 5 (Reachable.enqueue _ _ (Reachable.enqueue _ _ Reachable.new)))⟩

end detail
end executors
end rclcpp
